import Mathlib

/-!
Verification development for the bloodhound-agent client library.

The Python sources embedded here are `src/bloodhound_agent/bloodhound/base.py`
(credential handling, the HMAC request signer, and the generic request façade)
and `src/bloodhound_agent/bloodhound/cypher.py` (the Cypher query client with
its status-code classification and retry loop).

Byte strings are modelled as `List Nat` (each element a byte value), machine
words as `Nat` reduced modulo `2 ^ 32` where the algorithms require it, and
I/O (the HTTP exchange, the system clock, environment variables) is abstracted
into explicit function arguments.
-/

namespace Bloodhound

/-! ### UTF-8 encoding (Python `str.encode()`) -/

/-- UTF-8 encoding of a single character, as a list of byte values. -/
def charUtf8 (c : Char) : List Nat :=
  let n := c.toNat
  if n < 128 then [n]
  else if n < 2048 then [192 ||| (n >>> 6), 128 ||| (n &&& 63)]
  else if n < 65536 then
    [224 ||| (n >>> 12), 128 ||| ((n >>> 6) &&& 63), 128 ||| (n &&& 63)]
  else
    [240 ||| (n >>> 18), 128 ||| ((n >>> 12) &&& 63),
     128 ||| ((n >>> 6) &&& 63), 128 ||| (n &&& 63)]

/-- UTF-8 encoding of a character list. -/
def utf8Bytes : List Char → List Nat
  | [] => []
  | c :: cs => charUtf8 c ++ utf8Bytes cs

/-- UTF-8 encoding of a string: Python's `s.encode()`. -/
def strBytes (s : String) : List Nat := utf8Bytes s.data

/-! ### SHA-256 (Python `hashlib.sha256`) -/

/-- Truncation to a 32-bit word. -/
def w32 (n : Nat) : Nat := n % 4294967296

/-- 32-bit right rotation (input assumed `< 2 ^ 32`). -/
def rotr (x n : Nat) : Nat := w32 ((x >>> n) ||| (x <<< (32 - n)))

/-- Big-endian byte serialisation of `v` into `n` bytes. -/
def beBytes (n v : Nat) : List Nat :=
  (List.range n).map (fun i => (v >>> (8 * (n - 1 - i))) &&& 255)

/-- Big-endian 32-bit words from a byte list (length a multiple of 4). -/
def bytesToWords32 : List Nat → List Nat
  | a :: b :: c :: d :: rest =>
      (a * 16777216 + b * 65536 + c * 256 + d) :: bytesToWords32 rest
  | _ => []

/-- The SHA-256 round constants (FIPS 180-4), as decimal word values. -/
def sha256K : List Nat :=
  [1116352408, 1899447441, 3049323471, 3921009573, 961987163,
   1508970993, 2453635748, 2870763221, 3624381080, 310598401,
   607225278, 1426881987, 1925078388, 2162078206, 2614888103,
   3248222580, 3835390401, 4022224774, 264347078, 604807628,
   770255983, 1249150122, 1555081692, 1996064986, 2554220882,
   2821834349, 2952996808, 3210313671, 3336571891, 3584528711,
   113926993, 338241895, 666307205, 773529912, 1294757372,
   1396182291, 1695183700, 1986661051, 2177026350, 2456956037,
   2730485921, 2820302411, 3259730800, 3345764771, 3516065817,
   3600352804, 4094571909, 275423344, 430227734, 506948616,
   659060556, 883997877, 958139571, 1322822218, 1537002063,
   1747873779, 1955562222, 2024104815, 2227730452, 2361852424,
   2428436474, 2756734187, 3204031479, 3329325298]

/-- The eight 32-bit working variables of SHA-256. -/
structure Sha256State where
  a : Nat
  b : Nat
  c : Nat
  d : Nat
  e : Nat
  f : Nat
  g : Nat
  h : Nat

/-- The SHA-256 initial hash value (FIPS 180-4), as decimal word values. -/
def sha256Init : Sha256State :=
  ⟨1779033703, 3144134277, 1013904242, 2773480762,
   1359893119, 2600822924, 528734635, 1541459225⟩

/-- Message-schedule expansion: 16 input words extended to 64. -/
def sha256Schedule (ws : List Nat) : List Nat :=
  (List.range 48).foldl
    (fun acc i =>
      let w15 := acc.getD (i + 1) 0
      let w2 := acc.getD (i + 14) 0
      let s0 := (rotr w15 7) ^^^ (rotr w15 18) ^^^ (w15 >>> 3)
      let s1 := (rotr w2 17) ^^^ (rotr w2 19) ^^^ (w2 >>> 10)
      acc ++ [w32 (acc.getD i 0 + s0 + acc.getD (i + 9) 0 + s1)])
    ws

/-- One SHA-256 round; `kw` is the round constant plus the schedule word. -/
def sha256Round (st : Sha256State) (kw : Nat) : Sha256State :=
  let s1 := (rotr st.e 6) ^^^ (rotr st.e 11) ^^^ (rotr st.e 25)
  let ch := (st.e &&& st.f) ^^^ ((st.e ^^^ 4294967295) &&& st.g)
  let temp1 := w32 (st.h + s1 + ch + kw)
  let s0 := (rotr st.a 2) ^^^ (rotr st.a 13) ^^^ (rotr st.a 22)
  let maj := (st.a &&& st.b) ^^^ (st.a &&& st.c) ^^^ (st.b &&& st.c)
  let temp2 := w32 (s0 + maj)
  ⟨w32 (temp1 + temp2), st.a, st.b, st.c, w32 (st.d + temp1), st.e, st.f, st.g⟩

/-- Compression of one 64-byte block into the running hash. -/
def sha256Compress (hs : Sha256State) (block : List Nat) : Sha256State :=
  let ws := sha256Schedule (bytesToWords32 block)
  let st := (List.zipWith (fun k w => k + w) sha256K ws).foldl sha256Round hs
  ⟨w32 (hs.a + st.a), w32 (hs.b + st.b), w32 (hs.c + st.c), w32 (hs.d + st.d),
   w32 (hs.e + st.e), w32 (hs.f + st.f), w32 (hs.g + st.g), w32 (hs.h + st.h)⟩

/-- SHA-256 padding: a 0x80 byte, zeros to 56 mod 64, then the 64-bit
bit-length, big-endian. -/
def sha256Pad (msg : List Nat) : List Nat :=
  msg ++ [128] ++ List.replicate ((119 - msg.length % 64) % 64) 0 ++
    beBytes 8 (8 * msg.length)

/-- SHA-256 of a byte list, producing the 32-byte digest. -/
def sha256 (msg : List Nat) : List Nat :=
  let padded := sha256Pad msg
  let blocks := (List.range (padded.length / 64)).map
    (fun i => (padded.drop (64 * i)).take 64)
  let fin := blocks.foldl sha256Compress sha256Init
  beBytes 4 fin.a ++ beBytes 4 fin.b ++ beBytes 4 fin.c ++ beBytes 4 fin.d ++
    beBytes 4 fin.e ++ beBytes 4 fin.f ++ beBytes 4 fin.g ++ beBytes 4 fin.h

/-! ### HMAC-SHA-256 (Python `hmac.new(key, msg, hashlib.sha256)`) -/

/-- HMAC-SHA-256 with block size 64. -/
def hmacSha256 (key msg : List Nat) : List Nat :=
  let k0 := if 64 < key.length then sha256 key else key
  let kp := k0 ++ List.replicate (64 - k0.length) 0
  sha256 ((kp.map (fun b => b ^^^ 92)) ++
    sha256 ((kp.map (fun b => b ^^^ 54)) ++ msg))

/-! ### Base64 (Python `base64.b64encode`) -/

/-- The standard base64 alphabet. -/
def b64Chars : List Char :=
  "ABCDEFGHIJKLMNOPQRSTUVWXYZabcdefghijklmnopqrstuvwxyz0123456789+/".data

/-- The base64 character for a 6-bit value. -/
def b64c (n : Nat) : Char := b64Chars.getD n 'A'

/-- Standard base64 encoding with `=` padding. -/
def base64Encode : List Nat → String
  | [] => ""
  | [a] => String.mk [b64c (a >>> 2), b64c ((a &&& 3) <<< 4), '=', '=']
  | [a, b] =>
      String.mk [b64c (a >>> 2), b64c (((a &&& 3) <<< 4) ||| (b >>> 4)),
        b64c ((b &&& 15) <<< 2), '=']
  | a :: b :: c :: rest =>
      String.mk [b64c (a >>> 2), b64c (((a &&& 3) <<< 4) ||| (b >>> 4)),
        b64c (((b &&& 15) <<< 2) ||| (c >>> 6)), b64c (c &&& 63)] ++
        base64Encode rest

/-! ### JSON values (what Python's `response.json()` produces) -/

/-- A JSON value. Python dicts are association lists of fields. -/
inductive Json where
  | null : Json
  | bool (b : Bool) : Json
  | num (n : Int) : Json
  | str (s : String) : Json
  | arr (xs : List Json) : Json
  | obj (fields : List (String × Json)) : Json

/-- First binding of a key in an association list (Python dict lookup;
a `json`-decoded dict binds each key once). -/
def lookupField : List (String × Json) → String → Option Json
  | [], _ => none
  | (k, v) :: rest, key => if k = key then some v else lookupField rest key

/-- Python `d.get(key, default)`. The source only applies this to decoded
JSON objects (a non-dict value would raise `AttributeError` in Python; no
claim reaches that case, and the default is returned here). -/
def Json.getD (j : Json) (key : String) (dflt : Json) : Json :=
  match j with
  | .obj fields =>
    match lookupField fields key with
    | some v => v
    | none => dflt
  | _ => dflt

/-- Rendering of a JSON value as Python's `str()` inside an f-string.
Scalars follow Python exactly; for containers the source would use Python's
`repr`, which quotes differently — no claim depends on a container here. -/
def Json.pyStr : Json → String
  | .null => "None"
  | .bool true => "True"
  | .bool false => "False"
  | .num n => toString n
  | .str s => s
  | .arr _ => "[...]"
  | .obj _ => "\x7b...\x7d"

/-! ### HTTP abstraction

The `requests` library is external I/O; a completed HTTP exchange is
modelled by the data the source code inspects: the status code, the result
of `response.json()` (`some` when the body decodes, `none` when it raises
`JSONDecodeError`), and the reason phrase / URL that
`Response.raise_for_status` interpolates into its error message. -/

structure HttpResponse where
  status_code : Nat
  body : Option Json
  reason : String
  url : String

/-- The outcome of the `self.base_client._request(...)` call as observed by
`CypherClient.run_query`: either a response, or one of the exceptions its
handlers distinguish. `connectionError` is the `BloodhoundConnectionError`
that `_request` itself raises on `requests.exceptions.ConnectionError`;
`timeout` and `requestException` are `requests` exceptions that escape
`_request` and are caught by `run_query`'s own handlers. -/
inductive TransportEvent where
  | ok (response : HttpResponse)
  | connectionError (message : String)
  | timeout (message : String)
  | requestException (message : String)

/-- The exceptions of `base.py` that the claims track: `BloodhoundAPIError`
(carrying the message and the raw response) and
`BloodhoundConnectionError` (message only). -/
inductive BloodhoundErr where
  | apiError (message : String) (response : HttpResponse)
  | connectionError (message : String)

/-- `BloodhoundAPIError.status_code` (base.py line 47): the Python is
`self.status_code = response.status_code if response else None`, and
`if response` tests `requests.Response` truthiness — `Response.__bool__`
returns `Response.ok`, which is `False` exactly when the status is in
400-599 (`raise_for_status` would raise). The attribute is therefore
`None` for every 400-599 error response, and holds the actual status only
for responses outside that range (e.g. the decode error raised on a 200
body carries `200`). -/
def apiStatusCode (response : HttpResponse) : Option Nat :=
  if 400 ≤ response.status_code ∧ response.status_code < 600 then none
  else some response.status_code

/-! ### `base.py`: credentials and construction -/

/-- The credential fields stored by `BloodhoundBaseClient.__init__`. -/
structure BloodhoundBaseClient where
  scheme : String
  domain : String
  port : Nat
  token_id : String
  token_key : String

/-- Python truthiness of an optional string: `None` and `""` are falsy. -/
def truthyStr : Option String → Bool
  | none => false
  | some s => !(s == "")

/-- Python `a or b` on optional strings. -/
def pyOr (a b : Option String) : Option String :=
  if truthyStr a then a else b

/-- `BloodhoundBaseClient.__init__` (base.py lines 51-88). Arguments may be
absent (`none`, Python `None`); `envDomain`/`envTokenId`/`envTokenKey` stand
for `os.getenv` of the three fallback variables. Raising
`BloodhoundAuthError` is modelled as `Except.error` carrying the message; no
network is touched. -/
def BloodhoundBaseClient.init (domain token_id token_key : Option String)
    (port : Nat) (scheme : String)
    (envDomain envTokenId envTokenKey : Option String) :
    Except String BloodhoundBaseClient :=
  let d := pyOr domain envDomain
  let ti := pyOr token_id envTokenId
  let tk := pyOr token_key envTokenKey
  if !truthyStr d then
    .error "BloodHound domain must be provided either directly or via BLOODHOUND_DOMAIN environment variable"
  else if !truthyStr ti then
    .error "API token ID must be provided either directly or via BLOODHOUND_TOKEN_ID environment variable"
  else if !truthyStr tk then
    .error "API token key must be provided either directly or via BLOODHOUND_TOKEN_KEY environment variable"
  else
    .ok { scheme := scheme, domain := d.getD "", port := port,
          token_id := ti.getD "", token_key := tk.getD "" }

/-- `BloodhoundBaseClient._format_url` (base.py lines 90-96). -/
def format_url (c : BloodhoundBaseClient) (uri : String) : String :=
  let formatted_uri := if uri.startsWith "/" then uri.drop 1 else uri
  c.scheme ++ "://" ++ c.domain ++ ":" ++ toString c.port ++ "/" ++ formatted_uri

/-! ### `base.py`: the signed request (`_request`, lines 98-145)

The system clock is abstracted: `datetime_formatted` is the string that
`datetime.datetime.now().astimezone().isoformat("T")` produced for this
call. The function below performs exactly the signature chain and header
assembly of the source; the actual socket send is outside the model. -/

/-- The message bytes fed to the second HMAC stage: the first 13 characters
of the formatted timestamp, UTF-8 encoded (`datetime_formatted[:13].encode()`). -/
def dateStageMessage (datetime_formatted : String) : List Nat :=
  strBytes (datetime_formatted.take 13)

/-- The outgoing request assembled by `_request`: URL, method, headers, body. -/
structure SignedRequest where
  url : String
  method : String
  userAgent : String
  authorization : String
  requestDate : String
  signature : String
  contentType : String
  body : Option (List Nat)

/-- `BloodhoundBaseClient._request` up to the point the HTTP call is issued
(base.py lines 112-144): the three-stage HMAC chain and the signed headers. -/
def buildSignedRequest (c : BloodhoundBaseClient) (method uri : String)
    (body : Option (List Nat)) (datetime_formatted : String) : SignedRequest :=
  let digest1 := hmacSha256 (strBytes c.token_key) (strBytes (method ++ uri))
  let digest2 := hmacSha256 digest1 (dateStageMessage datetime_formatted)
  let digest3 := hmacSha256 digest2 (match body with | some b => b | none => [])
  { url := format_url c uri
    method := method
    userAgent := "bloodhound-api-client 0.1"
    authorization := "bhesignature " ++ c.token_id
    requestDate := datetime_formatted
    signature := base64Encode digest3
    contentType := "application/json"
    body := body }

/-! ### `base.py`: the request façade's response handling -/

/-- The error message `requests.Response.raise_for_status` raises for a
status in 400-599, `none` otherwise (no exception). -/
def raiseForStatusMsg (r : HttpResponse) : Option String :=
  if 400 ≤ r.status_code ∧ r.status_code < 500 then
    some (toString r.status_code ++ " Client Error: " ++ r.reason ++
      " for url: " ++ r.url)
  else if 500 ≤ r.status_code ∧ r.status_code < 600 then
    some (toString r.status_code ++ " Server Error: " ++ r.reason ++
      " for url: " ++ r.url)
  else none

/-- The response-handling tail of `BloodhoundBaseClient.request` (base.py
lines 181-197): `raise_for_status` then `response.json()`, with the
`HTTPError` handler enriching the message from the JSON body's `error`
field (the bare `except` swallows both a decode failure and a non-dict
body there) and the `JSONDecodeError` handler raising the decode error. -/
def requestHandleResponse (response : HttpResponse) :
    Except BloodhoundErr Json :=
  match raiseForStatusMsg response with
  | some httpErr =>
    let error_msg := "HTTP Error: " ++ httpErr
    let error_msg :=
      match response.body with
      | some (Json.obj fields) =>
        match lookupField fields "error" with
        | some v => error_msg ++ " - " ++ v.pyStr
        | none => error_msg
      | _ => error_msg
    .error (.apiError error_msg response)
  | none =>
    match response.body with
    | some j => .ok j
    | none => .error (.apiError "Invalid JSON response" response)

/-! ### `cypher.py`: `CypherClient.run_query` (lines 15-123)

The request construction (`POST /api/v2/graphs/cypher` with body
`{"query": ..., "includeproperties": ...}`) goes through the abstracted
HTTP exchange; that exchange's observable outcome is the `TransportEvent`
argument. Everything after the `_request` call is modelled exactly. -/

/-- The `metadata` dict of a successful `run_query` result. The 200 branch
builds it without a `message` key (`none` here); the 404 branch adds one. -/
structure QueryMetadata where
  status : String
  query : String
  has_results : Bool
  status_code : Nat
  message : Option String

/-- The dict returned by a successful `run_query`. -/
structure QueryResult where
  success : Bool
  data : Json
  metadata : QueryMetadata

/-- The empty-graph dict `{"nodes": [], "edges": []}` of the 404 branch. -/
def emptyGraphJson : Json :=
  Json.obj [("nodes", Json.arr []), ("edges", Json.arr [])]

/-- The `error_detail` extraction shared by the 400 and ≥500 branches:
`response.json().get("error", dflt)` with `decodeFail` on `JSONDecodeError`. -/
def errorDetail (body : Option Json) (dflt decodeFail : String) : String :=
  match body with
  | some j => (j.getD "error" (Json.str dflt)).pyStr
  | none => decodeFail

/-- `CypherClient.run_query` (cypher.py lines 15-123): classification of the
transport outcome into a result dict or a raised exception. -/
def run_query (query : String) (include_properties : Bool)
    (ev : TransportEvent) : Except BloodhoundErr QueryResult :=
  let _ := include_properties
  match ev with
  | .connectionError m => .error (.connectionError m)
  | .timeout m =>
    .error (.connectionError ("Request timeout during Cypher query: " ++ m))
  | .requestException m =>
    .error (.connectionError ("Network error during Cypher query: " ++ m))
  | .ok response =>
    if response.status_code = 200 then
      match response.body with
      | some json_data =>
        .ok { success := true
              data := json_data.getD "data" (Json.obj [])
              metadata := { status := "success_with_results", query := query,
                            has_results := true, status_code := 200,
                            message := none } }
      | none =>
        .error (.apiError "Invalid JSON response from Cypher query" response)
    else if response.status_code = 404 then
      .ok { success := true
            data := emptyGraphJson
            metadata := { status := "success_no_results", query := query,
                          has_results := false, status_code := 404,
                          message := some "Query executed successfully but found no matching data" } }
    else if response.status_code = 400 then
      .error (.apiError ("Cypher query syntax error: " ++
        errorDetail response.body "Unknown syntax error" "Malformed Cypher query")
        response)
    else if response.status_code = 401 then
      .error (.apiError
        "Authentication failed - check your BloodHound API credentials"
        response)
    else if response.status_code = 403 then
      .error (.apiError
        "Permission denied - insufficient privileges for Cypher queries"
        response)
    else if response.status_code = 429 then
      .error (.apiError
        "Rate limit exceeded - too many requests. Please wait before retrying."
        response)
    else if 500 ≤ response.status_code then
      .error (.apiError ("BloodHound server error: " ++
        errorDetail response.body "Unknown server error"
          ("HTTP " ++ toString response.status_code))
        response)
    else
      .error (.apiError
        ("Unexpected response status: " ++ toString response.status_code)
        response)

/-! ### `cypher.py`: `CypherClient.run_query_with_retry` (lines 125-180)

The loop `for attempt in range(max_retries + 1)` is modelled with
`attempt` the current 0-indexed attempt and `remaining = max_retries -
attempt` the retries still allowed, so `attempt < max_retries` is exactly
`remaining ≠ 0`. Each attempt's `run_query` outcome is supplied by the
`attempts` function; the trace records the final outcome, the number of
`run_query` calls made, and the `time.sleep` durations in order.

The `except BloodhoundAPIError` handler branches on `e.status_code`,
which is `apiStatusCode` of the carried response — `None` for every
400-599 response. Consequently `e.status_code in [400, 401, 403]` is
`False` whenever the attribute is `None` (Python list membership tolerates
`None`), `e.status_code == 429` is likewise `False`, but
`e.status_code >= 500` then raises `TypeError` (`'>=' not supported
between instances of 'NoneType' and 'int'`), which nothing in the loop
catches. The short-circuit of `attempt < max_retries and (...)` means the
comparison — hence the `TypeError` — is only reached when a retry is still
allowed; on the final attempt the error is re-raised. -/

/-- What escapes the retry loop: a re-raised Bloodhound exception, or the
uncaught `TypeError` from comparing a `None` status code with `500`. -/
inductive RetryError where
  | raised (e : BloodhoundErr) : RetryError
  | typeError : RetryError

/-- Observable trace of one `run_query_with_retry` invocation. -/
structure RetryTrace where
  result : Except RetryError QueryResult
  calls : Nat
  sleeps : List Nat

/-- The retry loop body from attempt number `attempt` with `remaining`
retries still allowed. -/
def retryGo (attempts : Nat → Except BloodhoundErr QueryResult) :
    Nat → Nat → RetryTrace
  | attempt, remaining =>
    match attempts attempt with
    | .ok result => { result := .ok result, calls := 1, sleeps := [] }
    | .error (.connectionError m) =>
      match remaining with
      | r + 1 =>
        let rest := retryGo attempts (attempt + 1) r
        { result := rest.result, calls := rest.calls + 1,
          sleeps := 2 ^ attempt :: rest.sleeps }
      | 0 =>
        { result := .error (.raised (.connectionError m)), calls := 1,
          sleeps := [] }
    | .error (.apiError m resp) =>
      -- `if e.status_code in [400, 401, 403]` — a `None` attribute is in no
      -- list, so this requires the listed status to be carried (which no
      -- response can produce, since 400-403 responses carry `None`)
      if apiStatusCode resp = some 400 ∨ apiStatusCode resp = some 401 ∨
          apiStatusCode resp = some 403 then
        { result := .error (.raised (.apiError m resp)), calls := 1,
          sleeps := [] }
      else
        match remaining with
        | r + 1 =>
          -- `e.status_code == 429` — `None == 429` is `False` in Python
          if apiStatusCode resp = some 429 then
            let rest := retryGo attempts (attempt + 1) r
            { result := rest.result, calls := rest.calls + 1,
              sleeps := max (2 ^ attempt) 10 :: rest.sleeps }
          else
            -- `e.status_code >= 500` — raises `TypeError` when the
            -- attribute is `None`
            match apiStatusCode resp with
            | none =>
              { result := .error .typeError, calls := 1, sleeps := [] }
            | some n =>
              if 500 ≤ n then
                let rest := retryGo attempts (attempt + 1) r
                { result := rest.result, calls := rest.calls + 1,
                  sleeps := 2 ^ attempt :: rest.sleeps }
              else
                { result := .error (.raised (.apiError m resp)), calls := 1,
                  sleeps := [] }
        | 0 =>
          { result := .error (.raised (.apiError m resp)), calls := 1,
            sleeps := [] }

/-- `CypherClient.run_query_with_retry` (cypher.py lines 125-180), starting
at attempt 0 with `max_retries` retries allowed. The final
`raise last_exception` of the source is unreachable (every loop iteration
returns, raises, or continues into a further iteration). -/
def run_query_with_retry (attempts : Nat → Except BloodhoundErr QueryResult)
    (max_retries : Nat) : RetryTrace :=
  retryGo attempts 0 max_retries

/-! ### Spec-side formulas

The following definitions transcribe the specification's wording, for
comparison with the embedded source code. -/

/-- The signature formula as the specification states it: `digest1` keyed by
the UTF-8 secret over the UTF-8 bytes of method concatenated with path,
`digest2` keyed by `digest1` over the first 13 characters of the timestamp,
`digest3` keyed by `digest2` over the body bytes when present and the empty
message otherwise, and the header value its standard base64 encoding. -/
def specSignature (secret method path : String) (body : Option (List Nat))
    (t : String) : String :=
  let digest1 := hmacSha256 (strBytes secret) (strBytes method ++ strBytes path)
  let digest2 := hmacSha256 digest1 (strBytes (t.take 13))
  let digest3 := hmacSha256 digest2 (match body with | some b => b | none => [])
  base64Encode digest3

/-- The message the façade attaches to an HTTP-failure error: the generic
`"HTTP Error: ..."` text, extended with `" - <error field>"` when the
decoded body is a dict containing an `error` key. -/
def facadeErrorMessage (r : HttpResponse) : String :=
  match r.body with
  | some (Json.obj fields) =>
    match lookupField fields "error" with
    | some v =>
      ("HTTP Error: " ++ (raiseForStatusMsg r).getD "") ++ " - " ++ v.pyStr
    | none => "HTTP Error: " ++ (raiseForStatusMsg r).getD ""
  | _ => "HTTP Error: " ++ (raiseForStatusMsg r).getD ""

/-! ### Supporting lemmas -/

theorem utf8Bytes_append (xs ys : List Char) :
    utf8Bytes (xs ++ ys) = utf8Bytes xs ++ utf8Bytes ys := by
  induction xs with
  | nil => simp [utf8Bytes]
  | cons c cs ih => simp [utf8Bytes, ih]

theorem strBytes_append (a b : String) :
    strBytes (a ++ b) = strBytes a ++ strBytes b := by
  simp only [strBytes, String.data_append, utf8Bytes_append]

/-! ### Claim C1 -/

/-- C1: for every signed request built by `_request` with method `m`, uri
`p`, optional body `b`, and timestamp `t`, the Signature header equals
`base64(digest3)` with `digest1 = HMAC-SHA256(utf8(token_key),
utf8(m) ++ utf8(p))`, `digest2 = HMAC-SHA256(digest1, utf8(t[:13]))`, and
`digest3 = HMAC-SHA256(digest2, b when present, else the empty message)`. -/
theorem C1_signature_chain (c : BloodhoundBaseClient) (method uri : String)
    (body : Option (List Nat)) (t : String) :
    (buildSignedRequest c method uri body t).signature =
      specSignature c.token_key method uri body t := by
  simp only [buildSignedRequest, specSignature, dateStageMessage,
    strBytes_append]

/-! ### Claim C6 -/

/-- C6: in every request built by `_request`, the UTF-8 bytes of the first
13 characters of the `RequestDate` header value are exactly the message fed
to the second HMAC stage, and the `RequestDate` header carries the full
non-truncated timestamp computed for that request. -/
theorem C6_request_date (c : BloodhoundBaseClient) (method uri : String)
    (body : Option (List Nat)) (t : String) :
    strBytes (((buildSignedRequest c method uri body t).requestDate).take 13)
        = dateStageMessage t
      ∧ (buildSignedRequest c method uri body t).requestDate = t :=
  ⟨rfl, rfl⟩

/-! ### Claim C7 -/

/-- C7: the signature is deterministic — two invocations with equal method,
uri, and body whose clock readings agree on the first 13 characters of the
formatted timestamp produce equal Signature header values. -/
theorem C7_signature_deterministic (c : BloodhoundBaseClient)
    (method uri : String) (body : Option (List Nat)) (t1 t2 : String)
    (h : t1.take 13 = t2.take 13) :
    (buildSignedRequest c method uri body t1).signature =
      (buildSignedRequest c method uri body t2).signature := by
  simp only [buildSignedRequest, dateStageMessage, h]

/-- Concrete instance of C7: one client, two clock readings within the
same hour. -/
theorem C7_witness :
    ("2024-01-15T14:22:01.123456+07:00".take 13
        = "2024-01-15T14:59:59.999999+07:00".take 13)
      ∧ (buildSignedRequest ⟨"https", "example.com", 443, "tid", "tkey"⟩
            "GET" "/api/version" none "2024-01-15T14:22:01.123456+07:00").signature
          = (buildSignedRequest ⟨"https", "example.com", 443, "tid", "tkey"⟩
            "GET" "/api/version" none "2024-01-15T14:59:59.999999+07:00").signature :=
  ⟨by decide,
   C7_signature_deterministic ⟨"https", "example.com", 443, "tid", "tkey"⟩
     "GET" "/api/version" none _ _ (by decide)⟩

/-! ### Claim C4 -/

/-- C4 states the code's documented intent (cypher.py's docstring and the
comments at lines 161-165), but the program diverges because of base.py
line 47: `BloodhoundAPIError.status_code` is `None` for every 400-599
response, so with `max_retries = 1` a 401 error is not re-raised — the
loop evaluates `e.status_code >= 500` and raises the uncaught `TypeError`
after one `run_query` call and no sleep. -/
theorem C4_typeerror_at_401 :
    run_query_with_retry
        (fun _ => .error (.apiError
          "Authentication failed - check your BloodHound API credentials"
          ⟨401, none, "Unauthorized", "u"⟩)) 1 =
      ⟨.error .typeError, 1, []⟩ := rfl

/-! ### Claim C5 -/

/-- C5's delay schedule is the code's documented intent (the
`Minimum 10 seconds for rate limiting` comment at cypher.py line 174), but
the program diverges: a 429 response carries `status_code = None`, so with
`max_retries = 1` the loop raises the uncaught `TypeError` after one call,
with no `max(2 ^ 0, 10)` sleep and no retry. -/
theorem C5_typeerror_at_429 :
    run_query_with_retry
        (fun _ => .error (.apiError
          "Rate limit exceeded - too many requests. Please wait before retrying."
          ⟨429, none, "Too Many Requests", "u"⟩)) 1 =
      ⟨.error .typeError, 1, []⟩ := rfl

/-! ### Claim C10 -/

/-- C10: a `BloodhoundAPIError` whose carried `status_code` attribute is a
number `n` not in {400, 401, 403, 429} and below 500 — for instance the
invalid-JSON decode error carrying status 200, or the UnexpectedStatus
error for a 3xx — is re-raised by `run_query_with_retry` immediately on
its first occurrence, with exactly one `run_query` call and no sleep, for
every `max_retries`. (Responses with status 400-599 carry `None`, not a
number, and are outside this claim.) -/
theorem C10_non_retryable_other_status
    (attempts : Nat → Except BloodhoundErr QueryResult) (max_retries : Nat)
    (m : String) (resp : HttpResponse) (n : Nat)
    (h : attempts 0 = .error (.apiError m resp))
    (hsc : apiStatusCode resp = some n)
    (h400 : n ≠ 400) (h401 : n ≠ 401) (h403 : n ≠ 403) (h429 : n ≠ 429)
    (h500 : n < 500) :
    run_query_with_retry attempts max_retries =
      ⟨.error (.raised (.apiError m resp)), 1, []⟩ := by
  have hfatal : ¬(apiStatusCode resp = some 400 ∨
      apiStatusCode resp = some 401 ∨ apiStatusCode resp = some 403) := by
    simp only [hsc, Option.some.injEq]
    omega
  have hnotrl : ¬(apiStatusCode resp = some 429) := by
    simp only [hsc, Option.some.injEq]
    omega
  show retryGo attempts 0 max_retries = _
  cases max_retries with
  | zero =>
    rw [retryGo, h]
    simp only [if_neg hfatal]
  | succ r =>
    rw [retryGo, h]
    simp only [if_neg hfatal, if_neg hnotrl]
    simp only [hsc, if_neg (show ¬(500 ≤ n) by omega)]

/-- Concrete instance of C10: the decode error carrying status 200 is
re-raised at once even with `max_retries = 3`. -/
theorem C10_witness :
    run_query_with_retry
        (fun _ => .error (.apiError "Invalid JSON response from Cypher query"
          ⟨200, none, "OK", "u"⟩)) 3 =
      ⟨.error (.raised (.apiError "Invalid JSON response from Cypher query"
        ⟨200, none, "OK", "u"⟩)), 1, []⟩ :=
  C10_non_retryable_other_status _ 3 _ _ 200 rfl rfl
    (by decide) (by decide) (by decide) (by decide) (by decide)

/-! ### Claim C2 -/

/-- C2 as stated is false: on status 200 with a JSON body lacking a `data`
field, `run_query`'s data component is the empty dict `{}` (the
`dict.get` default at cypher.py line 44), not the empty graph
`{nodes: [], edges: []}`. At the concrete input below the returned data is
`{}`, which differs from the empty graph. -/
theorem C2_counterexample :
    run_query "MATCH (n) RETURN n" true
        (.ok ⟨200, some (Json.obj []), "OK", "u"⟩) =
      .ok ⟨true, Json.obj [],
        ⟨"success_with_results", "MATCH (n) RETURN n", true, 200, none⟩⟩
    ∧ Json.obj [] ≠ emptyGraphJson := by
  refine ⟨rfl, ?_⟩
  simp [emptyGraphJson]

/-- C2 (amended): on status 200 whose JSON body is an object with no `data`
field, `run_query` returns Success whose data component is the empty JSON
object `{}` (the `dict.get` default), with metadata marking
`has_results = true`. -/
theorem C2_success_no_data_field (query : String) (ip : Bool)
    (r : HttpResponse) (fields : List (String × Json))
    (h200 : r.status_code = 200) (hbody : r.body = some (Json.obj fields))
    (hnone : lookupField fields "data" = none) :
    run_query query ip (.ok r) =
      .ok ⟨true, Json.obj [],
        ⟨"success_with_results", query, true, 200, none⟩⟩ := by
  simp [run_query, h200, hbody, Json.getD, hnone]

/-- Concrete instance of the amended C2. -/
theorem C2_witness :
    run_query "MATCH (n) RETURN n" true
        (.ok ⟨200, some (Json.obj [("other", Json.num 1)]), "OK", "u"⟩) =
      .ok ⟨true, Json.obj [],
        ⟨"success_with_results", "MATCH (n) RETURN n", true, 200, none⟩⟩ :=
  C2_success_no_data_field "MATCH (n) RETURN n" true
    ⟨200, some (Json.obj [("other", Json.num 1)]), "OK", "u"⟩
    [("other", Json.num 1)] rfl rfl rfl

/-! ### Claim C3 -/

/-- C3: on status 404 `run_query` never raises — it returns Success with
the empty graph `{nodes: [], edges: []}` and metadata marking
`has_results = false`. -/
theorem C3_404_is_success (query : String) (ip : Bool) (r : HttpResponse)
    (h404 : r.status_code = 404) :
    run_query query ip (.ok r) =
      .ok ⟨true, emptyGraphJson,
        ⟨"success_no_results", query, false, 404,
         some "Query executed successfully but found no matching data"⟩⟩ := by
  simp [run_query, h404]

/-- Concrete instance of C3. -/
theorem C3_witness :
    run_query "MATCH (n:Nothing) RETURN n" true
        (.ok ⟨404, none, "Not Found", "u"⟩) =
      .ok ⟨true, emptyGraphJson,
        ⟨"success_no_results", "MATCH (n:Nothing) RETURN n", false, 404,
         some "Query executed successfully but found no matching data"⟩⟩ :=
  C3_404_is_success "MATCH (n:Nothing) RETURN n" true
    ⟨404, none, "Not Found", "u"⟩ rfl

/-! ### Claim C8 -/

/-- C8: constructing the base client with any of domain, token-id or
token-key empty or absent after the environment fallback (itself possibly
absent) raises the auth configuration error — no network is involved in the
constructor — and when all three effective values are non-empty the
construction succeeds and stores them unchanged. -/
theorem C8_construction_validation :
    (∀ (domain token_id token_key : Option String) (port : Nat)
        (scheme : String) (envDomain envTokenId envTokenKey : Option String),
      (truthyStr (pyOr domain envDomain) = false
        ∨ truthyStr (pyOr token_id envTokenId) = false
        ∨ truthyStr (pyOr token_key envTokenKey) = false) →
      (BloodhoundBaseClient.init domain token_id token_key port scheme
        envDomain envTokenId envTokenKey).isOk = false)
    ∧ (∀ (domain token_id token_key : Option String) (port : Nat)
        (scheme : String) (envDomain envTokenId envTokenKey : Option String)
        (d ti tk : String),
      pyOr domain envDomain = some d → d ≠ "" →
      pyOr token_id envTokenId = some ti → ti ≠ "" →
      pyOr token_key envTokenKey = some tk → tk ≠ "" →
      BloodhoundBaseClient.init domain token_id token_key port scheme
        envDomain envTokenId envTokenKey = .ok ⟨scheme, d, port, ti, tk⟩) := by
  constructor
  · intro domain token_id token_key port scheme envDomain envTokenId
      envTokenKey h
    unfold BloodhoundBaseClient.init
    cases hd : truthyStr (pyOr domain envDomain) with
    | false => simp [hd, Except.isOk, Except.toBool]
    | true =>
      cases hti : truthyStr (pyOr token_id envTokenId) with
      | false => simp [hd, hti, Except.isOk, Except.toBool]
      | true =>
        cases htk : truthyStr (pyOr token_key envTokenKey) with
        | false => simp [hd, hti, htk, Except.isOk, Except.toBool]
        | true => simp [hd, hti, htk] at h
  · intro domain token_id token_key port scheme envDomain envTokenId
      envTokenKey d ti tk hdeq hdne htieq htine htkeq htkne
    simp [BloodhoundBaseClient.init, hdeq, htieq, htkeq, truthyStr,
      hdne, htine, htkne]

/-- Concrete instance of C8: a missing domain (no explicit argument, no
environment fallback) fails construction; full credentials construct a
client storing them unchanged. -/
theorem C8_witness :
    (BloodhoundBaseClient.init none (some "tid") (some "tkey") 443 "https"
        none none none).isOk = false
    ∧ BloodhoundBaseClient.init (some "example.com") (some "tid")
        (some "tkey") 443 "https" none none none =
      .ok ⟨"https", "example.com", 443, "tid", "tkey"⟩ :=
  ⟨C8_construction_validation.1 none (some "tid") (some "tkey") 443 "https"
      none none none (Or.inl rfl),
   C8_construction_validation.2 (some "example.com") (some "tid")
     (some "tkey") 443 "https" none none none "example.com" "tid" "tkey"
     rfl (by decide) rfl (by decide) rfl (by decide)⟩

/-! ### Claim C9 -/

/-- C9 as stated is false on two counts. First, a non-2xx status outside
the 400-599 range does not raise: at status 300 with a JSON object body
the façade's response handling returns the decoded body as success
(`raise_for_status` only raises for 400-599). Second, when it does raise,
the error does not carry the original HTTP status code: at a 404 the
raised `BloodhoundAPIError` has `status_code = None`, because base.py
line 47's `if response` tests `requests` truthiness, which is `False` for
every 400-599 response. -/
theorem C9_counterexample :
    (¬(200 ≤ (300 : Nat) ∧ (300 : Nat) ≤ 299)
      ∧ requestHandleResponse ⟨300, some (Json.obj []), "Multiple Choices", "u"⟩ =
          .ok (Json.obj []))
    ∧ (requestHandleResponse ⟨404, none, "Not Found", "u"⟩ =
        .error (.apiError (facadeErrorMessage ⟨404, none, "Not Found", "u"⟩)
          ⟨404, none, "Not Found", "u"⟩)
      ∧ apiStatusCode ⟨404, none, "Not Found", "u"⟩ = none) :=
  ⟨⟨by omega, rfl⟩, rfl, rfl⟩

/-- C9 (amended): the façade's response handling raises a typed API error
exactly for statuses in 400-599; that error carries the raw response
object, but its `status_code` attribute is `None` (base.py line 47 tests
`requests` truthiness, which is `False` on those statuses), and its
message starts with the generic `"HTTP Error"` text, extended from the
`error` field of the JSON body when the body is a JSON object containing
one. Every other status (2xx, but also 1xx/3xx) returns the JSON-decoded
body, or raises the decode API error when the body is not valid JSON --
that error carries the response and its `status_code` attribute holds the
actual status (such responses are truthy). -/
theorem C9_facade_error_handling :
    (∀ r : HttpResponse, 400 ≤ r.status_code → r.status_code < 600 →
      requestHandleResponse r = .error (.apiError (facadeErrorMessage r) r)
      ∧ apiStatusCode r = none
      ∧ ∃ rest, facadeErrorMessage r = "HTTP Error: " ++ rest)
    ∧ (∀ (r : HttpResponse) (j : Json),
      ¬(400 ≤ r.status_code ∧ r.status_code < 600) → r.body = some j →
      requestHandleResponse r = .ok j)
    ∧ (∀ r : HttpResponse,
      ¬(400 ≤ r.status_code ∧ r.status_code < 600) → r.body = none →
      requestHandleResponse r =
          .error (.apiError "Invalid JSON response" r)
        ∧ apiStatusCode r = some r.status_code) := by
  refine ⟨?_, ?_, ?_⟩
  · intro r h4 h6
    obtain ⟨msg, hm⟩ : ∃ m, raiseForStatusMsg r = some m := by
      unfold raiseForStatusMsg
      by_cases hc : 400 ≤ r.status_code ∧ r.status_code < 500
      · exact ⟨_, by rw [if_pos hc]⟩
      · have hc2 : 500 ≤ r.status_code ∧ r.status_code < 600 := by omega
        exact ⟨_, by rw [if_neg hc, if_pos hc2]⟩
    have hnone : apiStatusCode r = none := by
      unfold apiStatusCode
      rw [if_pos ⟨h4, h6⟩]
    obtain ⟨s, body, reason, url⟩ := r
    refine ⟨?_, hnone, ?_⟩
    · simp only [requestHandleResponse, facadeErrorMessage, hm, Option.getD]
    · simp only [facadeErrorMessage, hm, Option.getD]
      cases body with
      | none => exact ⟨msg, rfl⟩
      | some j =>
        cases j with
        | obj fields =>
          cases hlf : lookupField fields "error" with
          | some v =>
            refine ⟨msg ++ (" - " ++ v.pyStr), ?_⟩
            simp only [hlf]
            simp only [String.append_assoc]
          | none =>
            refine ⟨msg, ?_⟩
            simp only [hlf]
        | null => exact ⟨msg, rfl⟩
        | bool b => exact ⟨msg, rfl⟩
        | num n => exact ⟨msg, rfl⟩
        | str s2 => exact ⟨msg, rfl⟩
        | arr xs => exact ⟨msg, rfl⟩
  · intro r j h hb
    have h1 : ¬(400 ≤ r.status_code ∧ r.status_code < 500) := by omega
    have h2 : ¬(500 ≤ r.status_code ∧ r.status_code < 600) := by omega
    have hm : raiseForStatusMsg r = none := by
      unfold raiseForStatusMsg
      rw [if_neg h1, if_neg h2]
    unfold requestHandleResponse
    rw [hm, hb]
  · intro r h hb
    have h1 : ¬(400 ≤ r.status_code ∧ r.status_code < 500) := by omega
    have h2 : ¬(500 ≤ r.status_code ∧ r.status_code < 600) := by omega
    have hm : raiseForStatusMsg r = none := by
      unfold raiseForStatusMsg
      rw [if_neg h1, if_neg h2]
    constructor
    · unfold requestHandleResponse
      rw [hm, hb]
    · unfold apiStatusCode
      rw [if_neg h]

/-- Concrete instances of the amended C9: a 404 with a JSON `error` field
raises the API error with the enriched message and a `None` status-code
attribute; a 204 with a JSON body returns it; a 200 with a non-JSON body
raises the decode error whose attribute carries 200. -/
theorem C9_witness :
    (requestHandleResponse
        ⟨404, some (Json.obj [("error", Json.str "no such thing")]), "Not Found", "u"⟩ =
      .error (.apiError
        (facadeErrorMessage
          ⟨404, some (Json.obj [("error", Json.str "no such thing")]), "Not Found", "u"⟩)
        ⟨404, some (Json.obj [("error", Json.str "no such thing")]), "Not Found", "u"⟩)
      ∧ apiStatusCode
          ⟨404, some (Json.obj [("error", Json.str "no such thing")]), "Not Found", "u"⟩ = none)
    ∧ requestHandleResponse ⟨204, some Json.null, "No Content", "u"⟩ =
        .ok Json.null
    ∧ (requestHandleResponse ⟨200, none, "OK", "u"⟩ =
          .error (.apiError "Invalid JSON response" ⟨200, none, "OK", "u"⟩)
        ∧ apiStatusCode ⟨200, none, "OK", "u"⟩ = some 200) :=
  ⟨⟨(C9_facade_error_handling.1
      ⟨404, some (Json.obj [("error", Json.str "no such thing")]), "Not Found", "u"⟩
      (by decide) (by decide)).1,
    (C9_facade_error_handling.1
      ⟨404, some (Json.obj [("error", Json.str "no such thing")]), "Not Found", "u"⟩
      (by decide) (by decide)).2.1⟩,
   C9_facade_error_handling.2.1 ⟨204, some Json.null, "No Content", "u"⟩
     Json.null (by decide) rfl,
   C9_facade_error_handling.2.2 ⟨200, none, "OK", "u"⟩ (by decide) rfl⟩

end Bloodhound
